import Mathlib

/-!
A shallow embedding of the Option / Result / Nominal algebra of the
ts-utils repository, with proofs of its stated algebraic properties.

The repository ships several encodings of the Option algebra.  The
properties under study concern the sentinel encodings: the tag-based
module (whose `Nominal` helper is the identity function, so the tag is
erased) and the `NonNullable`-based module.  In both, `Some(v)` is the
value `v` itself and `None` is the host language's `null`, with
`undefined` also recognised as an empty option.  `Result` is a genuine
two-variant tagged sum built on symbol-discriminated `Nominal` objects.

Throwing accessors (`get`, `get_ok`, `get_err`) are modelled in the
`Except` monad.  Every operation whose source body contains a call to a
throwing accessor also has a faithful `Except`-valued translation
(suffix `E`), used to prove absence of failure; the plain (non-`E`)
definitions inline the accessor at its guarded, non-throwing branch.
-/

namespace TsUtils

/-- The universe of JS runtime values usable as sentinel-encoded option
values: the two absence sentinels (`null`, `undefined`) plus proper
values drawn from a payload type `α`. -/
inductive JSVal (α : Type) where
  | null : JSVal α
  | undef : JSVal α
  | val : α → JSVal α
deriving DecidableEq

/-- Equality of sentinel option values as the algebra observes them (and
as the host language's loose `==` relates the sentinels): the two
absence sentinels are identified, proper values are compared as
values, and a sentinel never equals a proper value. -/
def JSVal.noneEq {α : Type} : JSVal α → JSVal α → Prop
  | .null, .null => True
  | .null, .undef => True
  | .undef, .null => True
  | .undef, .undef => True
  | .val a, .val b => a = b
  | _, _ => False

namespace Opt

/-- `Some(v)` of the sentinel encodings: `Nominal(v)` where `Nominal` is
the identity function of the shared module, hence the payload itself. -/
def Some {α : Type} (v : JSVal α) : JSVal α := v

/-- `None()` returns `null`. -/
def None {α : Type} : JSVal α := JSVal.null

/-- `Option.some(v)` is `Some(v)`. -/
def some {α : Type} (v : JSVal α) : JSVal α := Some v

/-- `Option.none()` returns `null`. -/
def none {α : Type} : JSVal α := JSVal.null

/-- `is_none(o)`: `o === null || o === undefined`. -/
def is_none {α : Type} : JSVal α → Bool
  | .null => true
  | .undef => true
  | .val _ => false

/-- `is_some(o)`: `o !== null && o !== undefined`. -/
def is_some {α : Type} : JSVal α → Bool
  | .null => false
  | .undef => false
  | .val _ => true

/-- `Option.get(o)`: throws "tried to get value of none" when `is_none(o)`,
otherwise returns `o` itself (the payload, since `Some` is the identity). -/
def get {α : Type} (o : JSVal α) : Except String (JSVal α) :=
  if is_none o then Except.error "tried to get value of none" else Except.ok o

/-- `Option.from(v)`: `v === null || v === undefined ? None() : Some(v)`. -/
def from' {α : Type} : JSVal α → JSVal α
  | .null => None
  | .undef => None
  | .val a => Some (JSVal.val a)

/-- `Option.value(o, defaultValue)`: the default when `is_none(o)`,
otherwise the payload `o`. -/
def value {α : Type} (o d : JSVal α) : JSVal α :=
  if is_none o then d else o

/-- `Option.bind(o, f)`: `None()` when `is_none(o)`, otherwise `f(get(o))`
with `get(o) = o` on the non-none branch. -/
def bind {α β : Type} (o : JSVal α) (f : JSVal α → JSVal β) : JSVal β :=
  if is_none o then None else f o

/-- `Option.map(f, o)`: `None()` when `is_none(o)`, otherwise
`Some(f(get(o)))` with `get(o) = o` and `Some` the identity. -/
def map {α β : Type} (f : JSVal α → JSVal β) (o : JSVal α) : JSVal β :=
  if is_none o then None else Some (f o)

/-- `Option.fold({none, some}, o)`: `none()` when `is_none(o)`, otherwise
`some(get(o))` with `get(o) = o`. -/
def fold {α γ : Type} (nf : Unit → γ) (sf : JSVal α → γ) (o : JSVal α) : γ :=
  if is_none o then nf () else sf o

/-- `Option.compare(cmp, o0, o1)`: the four-way `switch` of the source,
delegating to `cmp` on payloads when both options are non-none. -/
def compare {α : Type} (cmp : JSVal α → JSVal α → Ordering)
    (o0 o1 : JSVal α) : Ordering :=
  if is_none o0 && is_none o1 then Ordering.eq
  else if is_none o0 && is_some o1 then Ordering.lt
  else if is_some o0 && is_none o1 then Ordering.gt
  else cmp o0 o1

/-- `Option.value` in its accessor-calling form (`return get(o)` after the
`is_none` guard), kept in the `Except` monad. -/
def valueE {α : Type} (o d : JSVal α) : Except String (JSVal α) :=
  if is_none o then pure d else get o

/-- `Option.bind` kept in the `Except` monad: the non-none branch calls the
throwing accessor `get`. -/
def bindE {α β : Type} (o : JSVal α) (f : JSVal α → JSVal β) :
    Except String (JSVal β) :=
  if is_none o then pure None
  else do
    let v ← get o
    pure (f v)

/-- `Option.join` kept in the `Except` monad: `get(oo)` then a second
`is_none` test on the inner option. -/
def joinE {α : Type} (oo : JSVal α) : Except String (JSVal α) :=
  if is_none oo then pure None
  else do
    let o ← get oo
    if is_none o then pure None else pure o

/-- `Option.map` kept in the `Except` monad. -/
def mapE {α β : Type} (f : JSVal α → JSVal β) (o : JSVal α) :
    Except String (JSVal β) :=
  if is_none o then pure None
  else do
    let v ← get o
    pure (Some (f v))

/-- `Option.fold` kept in the `Except` monad. -/
def foldE {α γ : Type} (nf : Unit → γ) (sf : JSVal α → γ) (o : JSVal α) :
    Except String γ :=
  if is_none o then pure (nf ())
  else do
    let v ← get o
    pure (sf v)

/-- `Option.equal` kept in the `Except` monad: on the `is_some(o1)` branch
both payloads are fetched with the throwing accessor. -/
def equalE {α : Type} (eq : JSVal α → JSVal α → Bool) (o0 o1 : JSVal α) :
    Except String Bool :=
  if is_none o0 then pure (is_none o1)
  else if is_some o1 then do
    let a ← get o0
    let b ← get o1
    pure (eq a b)
  else pure false

/-- `Option.compare` kept in the `Except` monad. -/
def compareE {α : Type} (cmp : JSVal α → JSVal α → Ordering)
    (o0 o1 : JSVal α) : Except String Ordering :=
  if is_none o0 && is_none o1 then pure Ordering.eq
  else if is_none o0 && is_some o1 then pure Ordering.lt
  else if is_some o0 && is_none o1 then pure Ordering.gt
  else do
    let a ← get o0
    let b ← get o1
    pure (cmp a b)

/-- `Option.to_array` kept in the `Except` monad. -/
def to_arrayE {α : Type} (o : JSVal α) : Except String (List (JSVal α)) :=
  if is_none o then pure []
  else do
    let v ← get o
    pure [v]

end Opt

/-- The `Result` sum: the source builds `Ok` and `Err` as `Nominal`
objects discriminated by two distinct module-private symbols, which is
exactly a two-variant tagged sum. -/
inductive Result (T E : Type) where
  | ok : T → Result T E
  | err : E → Result T E
deriving DecidableEq

namespace Result

/-- `is_ok(r)`: the discriminator is the `Ok` symbol. -/
def is_ok {T E : Type} : Result T E → Bool
  | .ok _ => true
  | .err _ => false

/-- `is_err(r)`: the discriminator is the `Err` symbol. -/
def is_err {T E : Type} : Result T E → Bool
  | .ok _ => false
  | .err _ => true

/-- `Result.get_ok(r)`: the Ok payload, or a thrown error on `Err`. -/
def get_ok {T E : Type} : Result T E → Except String T
  | .ok v => Except.ok v
  | .err _ => Except.error "Tried to get Ok value from Err"

/-- `Result.get_err(r)`: the Err payload, or a thrown error on `Ok`. -/
def get_err {T E : Type} : Result T E → Except String E
  | .ok _ => Except.error "Tried to get Err value from Ok"
  | .err e => Except.ok e

/-- `Result.bind(r, f)`: `f(get_ok(r))` when `is_ok(r)`, otherwise the
`Err` value `r` itself passed through. -/
def bind {T E F : Type} : Result T E → (T → Result F E) → Result F E
  | .ok v, f => f v
  | .err e, _ => .err e

/-- `Result.map(f, r)`: `Ok(f(get_ok(r)))` when `is_ok(r)`, otherwise the
`Err` value `r` itself passed through. -/
def map {T E F : Type} (f : T → F) : Result T E → Result F E
  | .ok v => .ok (f v)
  | .err e => .err e

/-- `Result.compare({ok, err}, r0, r1)`: delegates within a variant; across
variants `Ok` is `Less` and `Err` is `Greater`. -/
def compare {T E : Type} (cok : T → T → Ordering) (cerr : E → E → Ordering) :
    Result T E → Result T E → Ordering
  | .ok a, .ok b => cok a b
  | .err a, .err b => cerr a b
  | .ok _, .err _ => Ordering.lt
  | .err _, .ok _ => Ordering.gt

/-- `Result.value(r, fallback)` in the `Except` monad: the Ok branch calls
the throwing accessor `get_ok`. -/
def valueE {T E : Type} (r : Result T E) (fallback : T) : Except String T :=
  if is_ok r then get_ok r else pure fallback

/-- `Result.bind` in the `Except` monad.  The source returns `r` itself on
the non-ok branch; that value is the `Err` variant. -/
def bindE {T E F : Type} : Result T E → (T → Result F E) →
    Except String (Result F E)
  | .ok a, f => (get_ok (.ok a : Result T E)).map f
  | .err e, _ => pure (.err e)

/-- `Result.join` in the `Except` monad: `get_ok(rr)` when `is_ok(rr)`,
otherwise the `Err` value `rr` itself. -/
def joinE {T E : Type} : Result (Result T E) E → Except String (Result T E)
  | .ok a => get_ok (.ok a : Result (Result T E) E)
  | .err e => pure (.err e)

/-- `Result.map` in the `Except` monad. -/
def mapE {T E F : Type} (f : T → F) : Result T E → Except String (Result F E)
  | .ok a => (get_ok (.ok a : Result T E)).map (fun v => .ok (f v))
  | .err e => pure (.err e)

/-- `Result.map_err` in the `Except` monad: the Err branch calls the
throwing accessor `get_err`. -/
def map_errE {T E F : Type} (f : E → F) : Result T E →
    Except String (Result T F)
  | .ok v => pure (.ok v)
  | .err e => (get_err (.err e : Result T E)).map (fun x => .err (f x))

/-- `Result.fold({ok, err}, r)` in the `Except` monad: one of the two
throwing accessors is called depending on `is_ok(r)`. -/
def foldE {T E C : Type} (fok : T → C) (ferr : E → C) (r : Result T E) :
    Except String C :=
  if is_ok r then (get_ok r).map fok else (get_err r).map ferr

/-- `Result.equal({ok, err}, r0, r1)` in the `Except` monad: `false` when
the variants differ, otherwise both payloads are fetched with the
matching throwing accessor. -/
def equalE {T E : Type} (fok : T → T → Bool) (ferr : E → E → Bool)
    (r0 r1 : Result T E) : Except String Bool :=
  if (is_ok r0) != (is_ok r1) then pure false
  else if is_ok r0 then do
    let a ← get_ok r0
    let b ← get_ok r1
    pure (fok a b)
  else do
    let a ← get_err r0
    let b ← get_err r1
    pure (ferr a b)

/-- `Result.compare({ok, err}, r0, r1)` in the `Except` monad. -/
def compareE {T E : Type} (cok : T → T → Ordering) (cerr : E → E → Ordering)
    (r0 r1 : Result T E) : Except String Ordering :=
  if is_ok r0 && is_ok r1 then do
    let a ← get_ok r0
    let b ← get_ok r1
    pure (cok a b)
  else if is_err r0 && is_err r1 then do
    let a ← get_err r0
    let b ← get_err r1
    pure (cerr a b)
  else pure (if is_ok r0 then Ordering.lt else Ordering.gt)

end Result

/-- The universe of JS runtime values as observed by the `is_nominal`
membership test: primitives (for which `typeof` is not `"object"`, or
which are `null`), non-tag objects characterised by whether they carry
the internal `TYPE` and `VALUE` symbol keys, and objects built by the
`Nominal` constructor (discriminators modelled as numeric identities). -/
inductive JSAny where
  | null : JSAny
  | undef : JSAny
  | num : Int → JSAny
  | str : String → JSAny
  | bool : Bool → JSAny
  | func : JSAny
  | obj : Bool → Bool → JSAny
  | tagged : JSAny → Nat → JSAny
deriving DecidableEq

/-- `Nominal(v, t)`: builds the object `{[VALUE]: v, [TYPE]: t}`. -/
def Nominal (v : JSAny) (t : Nat) : JSAny := JSAny.tagged v t

/-- `Nominal.is_nominal(x)`:
`typeof x === "object" && x !== null && TYPE in x && VALUE in x`.
Primitives and `undefined` fail the `typeof` test, `null` fails the
null test, a non-tag object passes exactly when it carries both
internal symbol keys, and every `Nominal`-built object passes. -/
def Nominal.is_nominal : JSAny → Bool
  | .tagged _ _ => true
  | .obj hasTYPE hasVALUE => hasTYPE && hasVALUE
  | _ => false

/-- `x` was produced by the `Nominal` (tag) constructor. -/
def producedByTag (x : JSAny) : Prop := ∃ v t, x = JSAny.tagged v t

/-- A comparator is lawful when it is reflexive, swap-antisymmetric and
transitive on its induced `≤` (`cmp a b ≠ gt`). -/
def IsLawfulCmp {β : Type} (c : β → β → Ordering) : Prop :=
  (∀ a, c a a = Ordering.eq) ∧
  (∀ a b, c b a = (c a b).swap) ∧
  (∀ a b d, c a b ≠ Ordering.gt → c b d ≠ Ordering.gt → c a d ≠ Ordering.gt)

/-- The usual three-way comparator on naturals, used to instantiate the
comparator-parametric ordering properties at concrete inputs. -/
def natCmp (x y : Nat) : Ordering :=
  if x < y then Ordering.lt else if x = y then Ordering.eq else Ordering.gt

/-- A numeric key on sentinel option values over `Nat`, giving a concrete
total comparator on `JSVal Nat`. -/
def jKey : JSVal Nat → Nat
  | .null => 0
  | .undef => 1
  | .val a => a + 2

/-- A concrete lawful comparator on `JSVal Nat`. -/
def jsCmp (a b : JSVal Nat) : Ordering := natCmp (jKey a) (jKey b)

/-- `Except` value is a success. -/
def exOk {ε γ : Type} : Except ε γ → Bool
  | .ok _ => true
  | .error _ => false

theorem natCmp_lt {x y : Nat} (h : x < y) : natCmp x y = Ordering.lt := by
  simp [natCmp, h]

theorem natCmp_eq {x y : Nat} (h : x = y) : natCmp x y = Ordering.eq := by
  simp [natCmp, h]

theorem natCmp_gt {x y : Nat} (h : y < x) : natCmp x y = Ordering.gt := by
  have h1 : ¬ x < y := by omega
  have h2 : ¬ x = y := by omega
  simp [natCmp, h1, h2]

theorem natCmp_ne_gt {x y : Nat} : natCmp x y ≠ Ordering.gt ↔ x ≤ y := by
  rcases Nat.lt_trichotomy x y with h | h | h
  · simp [natCmp_lt h]
    omega
  · simp [natCmp_eq h]
    omega
  · simp [natCmp_gt h]
    omega

theorem natCmp_lawful : IsLawfulCmp natCmp := by
  refine ⟨fun a => natCmp_eq rfl, ?_, ?_⟩
  · intro a b
    rcases Nat.lt_trichotomy a b with h | h | h
    · rw [natCmp_lt h, natCmp_gt h]
      rfl
    · rw [natCmp_eq h, natCmp_eq h.symm]
      rfl
    · rw [natCmp_gt h, natCmp_lt h]
      rfl
  · intro a b d h1 h2
    rw [natCmp_ne_gt] at h1 h2 ⊢
    omega

theorem keyed_lawful {β γ : Type} (c : β → β → Ordering) (k : γ → β)
    (h : IsLawfulCmp c) : IsLawfulCmp (fun a b => c (k a) (k b)) :=
  ⟨fun a => h.1 (k a), fun a b => h.2.1 (k a) (k b),
    fun a b d => h.2.2 (k a) (k b) (k d)⟩

theorem jsCmp_lawful : IsLawfulCmp jsCmp :=
  keyed_lawful natCmp jKey natCmp_lawful

/-- Claim C2: the throwing accessors fail exactly on the wrong variant —
`get` errs iff the option is a None variant, `get_ok` errs iff the
result is an Err, `get_err` errs iff it is an Ok — and every other
operation of the two algebras whose source calls a throwing accessor
(value, map, map_err, bind, join, fold, equal, compare, to_array)
succeeds on every input; constructors and predicates are straight-line
and embedded as plainly total functions. -/
theorem only_unwrap_throws :
    (∀ (α : Type) (o : JSVal α), exOk (Opt.get o) = !Opt.is_none o)
    ∧ (∀ (T E : Type) (r : Result T E),
        exOk (Result.get_ok r) = !Result.is_err r)
    ∧ (∀ (T E : Type) (r : Result T E),
        exOk (Result.get_err r) = !Result.is_ok r)
    ∧ (∀ (α : Type) (o d : JSVal α), exOk (Opt.valueE o d) = true)
    ∧ (∀ (α β : Type) (f : JSVal α → JSVal β) (o : JSVal α),
        exOk (Opt.mapE f o) = true)
    ∧ (∀ (α β : Type) (o : JSVal α) (f : JSVal α → JSVal β),
        exOk (Opt.bindE o f) = true)
    ∧ (∀ (α : Type) (oo : JSVal α), exOk (Opt.joinE oo) = true)
    ∧ (∀ (α γ : Type) (nf : Unit → γ) (sf : JSVal α → γ) (o : JSVal α),
        exOk (Opt.foldE nf sf o) = true)
    ∧ (∀ (α : Type) (eq : JSVal α → JSVal α → Bool) (o0 o1 : JSVal α),
        exOk (Opt.equalE eq o0 o1) = true)
    ∧ (∀ (α : Type) (cmp : JSVal α → JSVal α → Ordering) (o0 o1 : JSVal α),
        exOk (Opt.compareE cmp o0 o1) = true)
    ∧ (∀ (α : Type) (o : JSVal α), exOk (Opt.to_arrayE o) = true)
    ∧ (∀ (T E : Type) (r : Result T E) (fb : T),
        exOk (Result.valueE r fb) = true)
    ∧ (∀ (T E F : Type) (f : T → F) (r : Result T E),
        exOk (Result.mapE f r) = true)
    ∧ (∀ (T E F : Type) (f : E → F) (r : Result T E),
        exOk (Result.map_errE f r) = true)
    ∧ (∀ (T E F : Type) (r : Result T E) (f : T → Result F E),
        exOk (Result.bindE r f) = true)
    ∧ (∀ (T E : Type) (rr : Result (Result T E) E),
        exOk (Result.joinE rr) = true)
    ∧ (∀ (T E C : Type) (fok : T → C) (ferr : E → C) (r : Result T E),
        exOk (Result.foldE fok ferr r) = true)
    ∧ (∀ (T E : Type) (fok : T → T → Bool) (ferr : E → E → Bool)
        (r0 r1 : Result T E), exOk (Result.equalE fok ferr r0 r1) = true)
    ∧ (∀ (T E : Type) (cok : T → T → Ordering) (cerr : E → E → Ordering)
        (r0 r1 : Result T E), exOk (Result.compareE cok cerr r0 r1) = true) := by
  refine ⟨?_, ?_, ?_, ?_, ?_, ?_, ?_, ?_, ?_, ?_, ?_, ?_, ?_, ?_, ?_, ?_,
    ?_, ?_, ?_⟩
  · intro α o; cases o <;> rfl
  · intro T E r; cases r <;> rfl
  · intro T E r; cases r <;> rfl
  · intro α o d; cases o <;> rfl
  · intro α β f o; cases o <;> rfl
  · intro α β o f; cases o <;> rfl
  · intro α oo; cases oo <;> rfl
  · intro α γ nf sf o; cases o <;> rfl
  · intro α eq o0 o1; cases o0 <;> cases o1 <;> rfl
  · intro α cmp o0 o1; cases o0 <;> cases o1 <;> rfl
  · intro α o; cases o <;> rfl
  · intro T E r fb; cases r <;> rfl
  · intro T E F f r; cases r <;> rfl
  · intro T E F f r; cases r <;> rfl
  · intro T E F r f; cases r <;> rfl
  · intro T E rr; cases rr <;> rfl
  · intro T E C fok ferr r; cases r <;> rfl
  · intro T E fok ferr r0 r1; cases r0 <;> cases r1 <;> rfl
  · intro T E cok cerr r0 r1; cases r0 <;> cases r1 <;> rfl

/-- Claim C6: the variant predicates are mutually exclusive and
exhaustive — for every sentinel option value exactly one of `is_some`
and `is_none` holds, and for every `Result` exactly one of `is_ok` and
`is_err` holds. -/
theorem predicates_exclusive_exhaustive :
    (∀ (α : Type) (o : JSVal α),
      (Opt.is_some o && Opt.is_none o) = false
      ∧ (Opt.is_some o || Opt.is_none o) = true)
    ∧ (∀ (T E : Type) (r : Result T E),
      (Result.is_ok r && Result.is_err r) = false
      ∧ (Result.is_ok r || Result.is_err r) = true) := by
  refine ⟨?_, ?_⟩
  · intro α o; cases o <;> exact ⟨rfl, rfl⟩
  · intro T E r; cases r <;> exact ⟨rfl, rfl⟩

/-- Claim C7: `Result.map` transforms only the Ok payload —
`map(f, ok(v)) = ok(f(v))` — and passes an Err through unchanged with
its original error value, not wrapped in a further Err. -/
theorem result_map_ok_err :
    (∀ (T E F : Type) (f : T → F) (v : T),
      Result.map f (Result.ok v : Result T E) = Result.ok (f v))
    ∧ (∀ (T E F : Type) (f : T → F) (e : E),
      Result.map f (Result.err e : Result T E) = (Result.err e : Result F E)) :=
  ⟨fun _ _ _ _ _ => rfl, fun _ _ _ _ _ => rfl⟩

/-- Claim C8: `Option.from` normalizes a possibly-absent value — it
returns `none()` on both absence sentinels (`null` and `undefined`) and
`some(v)` on every proper value. -/
theorem option_from_normalizes :
    (∀ (α : Type), Opt.from' (JSVal.null : JSVal α) = Opt.none
      ∧ Opt.from' (JSVal.undef : JSVal α) = Opt.none)
    ∧ (∀ (α : Type) (a : α), Opt.from' (JSVal.val a) = Opt.some (JSVal.val a)) :=
  ⟨fun _ => ⟨rfl, rfl⟩, fun _ _ => rfl⟩

/-- Claim C1, counterexample: in the sentinel Option encoding the left
identity law fails as universally stated — with `v = null` the value
`some(null)` collapses to `None`, so `bind(some(null), f)` is `none()`
although `f(null)` is `some(0)`; the two are unequal both literally and
as option values. -/
theorem bind_left_identity_fails_at_null :
    Opt.bind (Opt.some (JSVal.null : JSVal Nat))
        (fun _ => Opt.some (JSVal.val 0))
      ≠ Opt.some (JSVal.val 0)
    ∧ ¬ JSVal.noneEq
        (Opt.bind (Opt.some (JSVal.null : JSVal Nat))
          (fun _ => Opt.some (JSVal.val 0)))
        (Opt.some (JSVal.val 0)) := by
  refine ⟨by decide, ?_⟩
  intro h
  exact h

/-- Claim C1, amended: `Result.bind` satisfies all three monad laws
unconditionally; for the sentinel Option encoding, left identity
`bind(some(v), f) = f(v)` holds for every non-nullish `v`, right
identity `bind(o, some) = o` holds up to identification of the two
absence sentinels (`bind(undefined, some)` is `null`), and
associativity holds literally for all inputs. -/
theorem bind_monad_laws :
    (∀ (α β : Type) (v : JSVal α) (f : JSVal α → JSVal β),
      Opt.is_none v = false → Opt.bind (Opt.some v) f = f v)
    ∧ (∀ (α : Type) (o : JSVal α), JSVal.noneEq (Opt.bind o Opt.some) o)
    ∧ (∀ (α β γ : Type) (o : JSVal α) (f : JSVal α → JSVal β)
        (g : JSVal β → JSVal γ),
        Opt.bind (Opt.bind o f) g = Opt.bind o (fun x => Opt.bind (f x) g))
    ∧ (∀ (T E U : Type) (v : T) (f : T → Result U E),
        Result.bind (Result.ok v) f = f v)
    ∧ (∀ (T E : Type) (r : Result T E), Result.bind r Result.ok = r)
    ∧ (∀ (T E U V : Type) (r : Result T E) (f : T → Result U E)
        (g : U → Result V E),
        Result.bind (Result.bind r f) g
          = Result.bind r (fun x => Result.bind (f x) g)) := by
  refine ⟨?_, ?_, ?_, ?_, ?_, ?_⟩
  · intro α β v f h
    cases v with
    | null => simp [Opt.is_none] at h
    | undef => simp [Opt.is_none] at h
    | val a => rfl
  · intro α o
    cases o with
    | null => trivial
    | undef => trivial
    | val a => rfl
  · intro α β γ o f g; cases o <;> rfl
  · intro T E U v f; rfl
  · intro T E r; cases r <;> rfl
  · intro T E U V r f g; cases r <;> rfl

/-- Claim C1, witness: left identity applied at the non-nullish payload
`5`. -/
theorem bind_monad_laws_witness :
    Opt.bind (Opt.some (JSVal.val (5 : Nat)))
        (fun _ => (JSVal.val (7 : Nat) : JSVal Nat))
      = JSVal.val 7 :=
  bind_monad_laws.1 Nat Nat (JSVal.val 5) (fun _ => JSVal.val 7) rfl

/-- Claim C3, counterexample: the round-trip `get(some(v)) = v` fails as
universally stated — `some(null)` is `None` in the sentinel encoding,
so `get(some(null))` throws instead of returning `null`. -/
theorem get_some_null_throws :
    Opt.get (Opt.some (JSVal.null : JSVal Nat))
        = Except.error "tried to get value of none"
    ∧ Opt.get (Opt.some (JSVal.null : JSVal Nat))
        ≠ Except.ok JSVal.null := by
  refine ⟨rfl, ?_⟩
  intro h
  cases h

/-- Claim C3, amended: `get_ok(ok(v)) = v` and `get_err(err(e)) = e` for
all payloads; `get(some(v)) = v` for every non-nullish `v` (for a
nullish `v`, `some(v)` is `None` and `get` throws). -/
theorem roundtrip_get :
    (∀ (α : Type) (v : JSVal α),
      Opt.is_none v = false → Opt.get (Opt.some v) = Except.ok v)
    ∧ (∀ (T E : Type) (v : T),
        Result.get_ok (Result.ok v : Result T E) = Except.ok v)
    ∧ (∀ (T E : Type) (e : E),
        Result.get_err (Result.err e : Result T E) = Except.ok e) := by
  refine ⟨?_, ?_, ?_⟩
  · intro α v h
    cases v with
    | null => simp [Opt.is_none] at h
    | undef => simp [Opt.is_none] at h
    | val a => rfl
  · intro T E v; rfl
  · intro T E e; rfl

/-- Claim C3, witness: the option round-trip applied at the non-nullish
payload `4`. -/
theorem roundtrip_get_witness :
    Opt.get (Opt.some (JSVal.val (4 : Nat))) = Except.ok (JSVal.val 4) :=
  roundtrip_get.1 Nat (JSVal.val 4) rfl

/-- Claim C5, counterexample: the fold/value/map consistency law fails as
universally stated — with `o = some(0)` and `f` constantly `null`,
`fold` returns `f(0) = null` while `value(map(f, o), D)` re-collapses
the nullish `f(0)` into `None` and returns the default `D = 5`. -/
theorem fold_value_map_fails_on_nullish :
    Opt.fold (fun _ => (JSVal.val (5 : Nat) : JSVal Nat))
        (fun _ => (JSVal.null : JSVal Nat)) (Opt.some (JSVal.val (0 : Nat)))
      ≠ Opt.value
          (Opt.map (fun _ => (JSVal.null : JSVal Nat))
            (Opt.some (JSVal.val (0 : Nat))))
          (JSVal.val 5) := by
  decide

/-- Claim C5, amended: `fold({none: () => D, some: v => f(v)}, o)` equals
`value(map(f, o), D)` whenever `f` returns a non-nullish result on the
payload of `o`; when `f` returns a nullish value, `map` collapses it to
`None` and `value` substitutes the default. -/
theorem fold_value_map_consistency :
    ∀ (α β : Type) (o : JSVal α) (f : JSVal α → JSVal β) (D : JSVal β),
      (Opt.is_none o = false → Opt.is_none (f o) = false) →
      Opt.fold (fun _ => D) f o = Opt.value (Opt.map f o) D := by
  intro α β o f D h
  cases o with
  | null => rfl
  | undef => rfl
  | val a =>
    have h2 : Opt.is_none (f (JSVal.val a)) = false := h rfl
    have h3 : Opt.is_none (JSVal.val a) = false := rfl
    simp [Opt.fold, Opt.map, Opt.Some, Opt.value, h2, h3]

/-- Claim C5, witness: the consistency law applied at `o = some(2)`,
`f` the identity and `D = 9`. -/
theorem fold_value_map_consistency_witness :
    Opt.fold (fun _ => (JSVal.val (9 : Nat) : JSVal Nat)) (fun x => x)
        (Opt.some (JSVal.val (2 : Nat)))
      = Opt.value
          (Opt.map (fun x => x) (Opt.some (JSVal.val (2 : Nat))))
          (JSVal.val 9) :=
  fold_value_map_consistency Nat Nat (Opt.some (JSVal.val 2)) (fun x => x)
    (JSVal.val 9) (fun _ => rfl)

/-- Claim C10: in the sentinel Option encodings `Some` is the identity on
its payload, so the variants collapse at nullish payloads — `some(v)`
of a nullish `v` satisfies `is_none`, and `map(f, some(w))` is a None
variant whenever `f(w)` is nullish rather than a Some wrapping that
result. -/
theorem sentinel_some_collapse :
    (∀ (α : Type) (v : JSVal α), Opt.some v = v)
    ∧ (∀ (α : Type) (v : JSVal α),
        Opt.is_none v = true → Opt.is_none (Opt.some v) = true)
    ∧ (∀ (α β : Type) (f : JSVal α → JSVal β) (w : JSVal α),
        Opt.is_none (f w) = true
          → Opt.is_none (Opt.map f (Opt.some w)) = true) := by
  refine ⟨fun _ _ => rfl, fun _ _ h => h, ?_⟩
  intro α β f w h
  cases w with
  | null => rfl
  | undef => rfl
  | val a => simpa [Opt.map, Opt.Some, Opt.some, Opt.is_none] using h

/-- Claim C10, witness: the collapse applied at the nullish payload
`null` and at a map whose function returns `null` on the payload `0`. -/
theorem sentinel_some_collapse_witness :
    Opt.is_none (Opt.some (JSVal.null : JSVal Nat)) = true
    ∧ Opt.is_none
        (Opt.map (fun _ => (JSVal.null : JSVal Nat))
          (Opt.some (JSVal.val (0 : Nat)))) = true :=
  ⟨sentinel_some_collapse.2.1 Nat JSVal.null rfl,
    sentinel_some_collapse.2.2 Nat Nat (fun _ => JSVal.null)
      (JSVal.val 0) rfl⟩

/-- Claim C4, counterexample: under the concrete lawful comparator
`jsCmp`, the law "none() orders strictly before every some(v)" fails at
the nullish payload `v = null` — `some(null)` collapses to `None`, so
the comparison yields `Equal`, not `Less`. -/
theorem compare_none_some_null_not_less :
    IsLawfulCmp jsCmp
    ∧ Opt.compare jsCmp Opt.none (Opt.some JSVal.null) ≠ Ordering.lt :=
  ⟨jsCmp_lawful, by decide⟩

/-- Claim C4, amended: for every lawful comparator (reflexive,
swap-antisymmetric, transitive on the induced `≤`), `Option.compare`
and `Result.compare` are themselves reflexive, swap-antisymmetric and
transitive; `none()` orders strictly before every non-None option value
(every `some(v)` with non-nullish `v`), and every Ok value orders
strictly before every Err value. -/
theorem compare_total_order :
    (∀ (α : Type) (cmp : JSVal α → JSVal α → Ordering), IsLawfulCmp cmp →
      (∀ o, Opt.compare cmp o o = Ordering.eq)
      ∧ (∀ o0 o1, Opt.compare cmp o1 o0 = (Opt.compare cmp o0 o1).swap)
      ∧ (∀ o0 o1 o2, Opt.compare cmp o0 o1 ≠ Ordering.gt →
          Opt.compare cmp o1 o2 ≠ Ordering.gt →
          Opt.compare cmp o0 o2 ≠ Ordering.gt)
      ∧ (∀ o, Opt.is_none o = false →
          Opt.compare cmp Opt.none o = Ordering.lt))
    ∧ (∀ (T E : Type) (cok : T → T → Ordering) (cerr : E → E → Ordering),
        IsLawfulCmp cok → IsLawfulCmp cerr →
        (∀ r, Result.compare cok cerr r r = Ordering.eq)
        ∧ (∀ r0 r1, Result.compare cok cerr r1 r0
            = (Result.compare cok cerr r0 r1).swap)
        ∧ (∀ r0 r1 r2, Result.compare cok cerr r0 r1 ≠ Ordering.gt →
            Result.compare cok cerr r1 r2 ≠ Ordering.gt →
            Result.compare cok cerr r0 r2 ≠ Ordering.gt))
    ∧ (∀ (T E : Type) (cok : T → T → Ordering) (cerr : E → E → Ordering)
        (v : T) (e : E),
        Result.compare cok cerr (Result.ok v) (Result.err e)
          = Ordering.lt) := by
  refine ⟨?_, ?_, ?_⟩
  · intro α cmp hc
    refine ⟨?_, ?_, ?_, ?_⟩
    · intro o
      cases o with
      | null => rfl
      | undef => rfl
      | val a => exact hc.1 (JSVal.val a)
    · intro o0 o1
      cases o0 <;> cases o1 <;>
        first
          | rfl
          | exact hc.2.1 _ _
    · intro o0 o1 o2 h1 h2
      cases o0 with
      | null => cases o2 <;> simp [Opt.compare, Opt.is_none, Opt.is_some]
      | undef => cases o2 <;> simp [Opt.compare, Opt.is_none, Opt.is_some]
      | val a =>
        cases o1 with
        | null => exact absurd rfl h1
        | undef => exact absurd rfl h1
        | val b =>
          cases o2 with
          | null => exact absurd rfl h2
          | undef => exact absurd rfl h2
          | val c =>
            exact hc.2.2 (JSVal.val a) (JSVal.val b) (JSVal.val c) h1 h2
    · intro o h
      cases o with
      | null => simp [Opt.is_none] at h
      | undef => simp [Opt.is_none] at h
      | val a => rfl
  · intro T E cok cerr hok herr
    refine ⟨?_, ?_, ?_⟩
    · intro r
      cases r with
      | ok a => exact hok.1 a
      | err e => exact herr.1 e
    · intro r0 r1
      cases r0 <;> cases r1 <;>
        first
          | rfl
          | exact hok.2.1 _ _
          | exact herr.2.1 _ _
    · intro r0 r1 r2 h1 h2
      cases r0 with
      | ok a =>
        cases r2 with
        | err e => simp [Result.compare]
        | ok c =>
          cases r1 with
          | err e => exact absurd rfl h2
          | ok b => exact hok.2.2 a b c h1 h2
      | err e =>
        cases r1 with
        | ok b => exact absurd rfl h1
        | err e1 =>
          cases r2 with
          | ok c => exact absurd rfl h2
          | err e2 => exact herr.2.2 e e1 e2 h1 h2
  · intro T E cok cerr v e; rfl

/-- Claim C4, witness: the ordering properties applied to the concrete
lawful comparators `jsCmp` and `natCmp`. -/
theorem compare_total_order_witness :
    Opt.compare jsCmp Opt.none (JSVal.val 3) = Ordering.lt
    ∧ Result.compare natCmp natCmp (Result.ok 1 : Result Nat Nat)
        (Result.err 2) = Ordering.lt
    ∧ Result.compare natCmp natCmp (Result.ok 1 : Result Nat Nat)
        (Result.ok 1) = Ordering.eq :=
  ⟨(compare_total_order.1 Nat jsCmp jsCmp_lawful).2.2.2 (JSVal.val 3) rfl,
    compare_total_order.2.2 Nat Nat natCmp natCmp 1 2,
    (compare_total_order.2.1 Nat Nat natCmp natCmp natCmp_lawful
      natCmp_lawful).1 (Result.ok 1)⟩

/-- Claim C9, counterexample: `is_nominal` is a structural key-presence
check, so a non-tag object carrying both internal symbol keys (which
the module exports) satisfies it although it was not produced by the
tag constructor. -/
theorem is_nominal_forgeable :
    Nominal.is_nominal (JSAny.obj true true) = true
    ∧ ¬ producedByTag (JSAny.obj true true) := by
  refine ⟨rfl, ?_⟩
  rintro ⟨v, t, h⟩
  exact JSAny.noConfusion h

/-- Claim C9, amended: `is_nominal(x)` holds for every `tag(v, d)` and
fails for every primitive, `null`, `undefined`, function, and object
lacking one of the two internal symbol keys; being a structural check,
it also holds for a non-tag object that carries both keys, so
membership is exactly "tagged or carrying both internal keys" rather
than "produced by tag". -/
theorem is_nominal_characterization :
    ∀ x : JSAny, Nominal.is_nominal x = true
      ↔ (producedByTag x ∨ x = JSAny.obj true true) := by
  intro x
  cases x with
  | tagged v t => exact iff_of_true rfl (Or.inl ⟨v, t, rfl⟩)
  | obj hT hV =>
    cases hT <;> cases hV <;> simp [Nominal.is_nominal, producedByTag]
  | null => simp [Nominal.is_nominal, producedByTag]
  | undef => simp [Nominal.is_nominal, producedByTag]
  | num n => simp [Nominal.is_nominal, producedByTag]
  | str s => simp [Nominal.is_nominal, producedByTag]
  | bool b => simp [Nominal.is_nominal, producedByTag]
  | func => simp [Nominal.is_nominal, producedByTag]

end TsUtils
